import Mathlib

/-!
Shallow embedding of the Happy Home backend (src/app.py), a Flask/SQLAlchemy
HTTP-JSON service with four entities (User, Member, List item, Event), a
bcrypt credential layer and marshmallow serialization schemas.

Modelling conventions:
* the SQLite store is a record of four lists of rows; primary keys are
  assigned as max of the existing keys plus one (the SQLite rowid rule);
* each request handler is a pure function from its extracted JSON fields and
  the current store to a pair of a result and the next store; a Python
  exception that escapes the handler (AttributeError on a missing model
  attribute, UnmappedInstanceError from session.delete on None, IntegrityError
  from a unique constraint at commit) is an Except.error, while every body the
  code builds with jsonify is an Except.ok carrying HTTP status 200;
* request.get returns None for an absent key, so payload fields that a claim
  exercises as absent are Option values.
-/

namespace HappyHome

/-- Row of the user table (class User, src/app.py lines 23-36). The password
column holds whatever string the handler stored there. -/
structure User where
  id : Nat
  username : String
  password : String
  email : String
  img : Option String
deriving Repr, DecidableEq

/-- Row of the member table (class Member, src/app.py lines 39-49). Its
primary key column is member_id; the class has no attribute named id. -/
structure Member where
  member_id : Nat
  first_name : String
  last_name : String
  user_id : Nat
deriving Repr, DecidableEq

/-- Row of the list table (class List in src/app.py lines 52-63, renamed here
to avoid the Lean core List). The is_completed column is nullable with a
Python-side default of False; that default fires only when no value at all is
supplied for the column, and the constructor always assigns the attribute, so
a row built from a payload lacking the key stores NULL (none), not False. -/
structure ListItem where
  list_id : Nat
  text : String
  is_completed : Option Bool
  list_type : String
  member_id : Nat
deriving Repr, DecidableEq

/-- Row of the event table (class Event, src/app.py lines 66-77). -/
structure Event where
  event_id : Nat
  title : String
  start : String
  end_ : String
  user_id : Nat
deriving Repr, DecidableEq

/-- The relational store: one list of rows per table. -/
structure DB where
  users : List User
  members : List Member
  items : List ListItem
  events : List Event
deriving Repr, DecidableEq

/-- The empty store the service starts from. -/
def initDB : DB := ⟨[], [], [], []⟩

/-- SQLite assigns a fresh integer primary key as one more than the largest
key currently in the table. -/
def next_id (ids : List Nat) : Nat := ids.foldr max 0 + 1

/-- Modelled from the spec: the credential layer (spec section 4.3) is the
bcrypt library, whose code is not under src/ (src/app.py only calls it at
lines 143 and 166). The spec describes Hash as a one-way transformation of a
plaintext into an opaque stored string; this deterministic abstraction tags
the plaintext with a bcrypt-style prefix, which makes Hash injective and
never equal to its input. -/
def generate_password_hash (password : String) : String :=
  "$2b$12$" ++ password

/-- Modelled from the spec: Verify(plaintext, storedHash) from spec section
4.3, with the argument order of bcrypt.check_password_hash(pw_hash, password):
it succeeds exactly when hashing the candidate reproduces the stored hash. -/
def check_password_hash (pw_hash password : String) : Bool :=
  generate_password_hash password == pw_hash

-- SCHEMAS (marshmallow field whitelists, src/app.py lines 84-117)

/-- EventSchema projection: fields event_id, title, start, end. -/
structure DumpedEvent where
  event_id : Nat
  title : String
  start : String
  end_ : String
deriving Repr, DecidableEq

/-- ListSchema projection: fields list_id, text, is_completed, list_type. -/
structure DumpedItem where
  list_id : Nat
  text : String
  is_completed : Option Bool
  list_type : String
deriving Repr, DecidableEq

/-- MemberSchema projection: fields member_id, first_name, last_name and the
nested lists array. -/
structure DumpedMember where
  member_id : Nat
  first_name : String
  last_name : String
  lists : List DumpedItem
deriving Repr, DecidableEq

/-- UserSchema projection: fields id, username, password, email, img and the
nested members and events arrays (src/app.py line 112). -/
structure DumpedUser where
  id : Nat
  username : String
  password : String
  email : String
  img : Option String
  members : List DumpedMember
  events : List DumpedEvent
deriving Repr, DecidableEq

/-- Serialize one event. -/
def dumpEvent (e : Event) : DumpedEvent :=
  ⟨e.event_id, e.title, e.start, e.end_⟩

/-- Serialize one list item. -/
def dumpItem (l : ListItem) : DumpedItem :=
  ⟨l.list_id, l.text, l.is_completed, l.list_type⟩

/-- The lists relationship of a member: the items whose foreign key
member_id equals its primary key. -/
def memberLists (db : DB) (m : Member) : List ListItem :=
  db.items.filter (fun l => l.member_id == m.member_id)

/-- Serialize one member together with its nested lists array. -/
def dumpMember (db : DB) (m : Member) : DumpedMember :=
  ⟨m.member_id, m.first_name, m.last_name, (memberLists db m).map dumpItem⟩

/-- The members relationship of a user. -/
def userMembers (db : DB) (u : User) : List Member :=
  db.members.filter (fun m => m.user_id == u.id)

/-- The events relationship of a user. -/
def userEvents (db : DB) (u : User) : List Event :=
  db.events.filter (fun e => e.user_id == u.id)

/-- Serialize one user together with its nested members and events arrays;
the password field of the projection is the stored password column. -/
def dumpUser (db : DB) (u : User) : DumpedUser :=
  ⟨u.id, u.username, u.password, u.email, u.img,
    (userMembers db u).map (dumpMember db), (userEvents db u).map dumpEvent⟩

-- RESPONSES AND FAULTS

/-- A Python exception escaping a handler. AttributeError carries the name of
the missing class attribute. -/
inductive Fault where
  | attributeError : String → Fault
  | unmappedInstance : Fault
  | integrityError : Fault
deriving Repr, DecidableEq

/-- The JSON value a handler passes to jsonify. -/
inductive Body where
  | msg : String → Body
  | user : DumpedUser → Body
  | userOpt : Option DumpedUser → Body
  | users : List DumpedUser → Body
  | member : DumpedMember → Body
  | memberOpt : Option DumpedMember → Body
  | members : List DumpedMember → Body
  | item : DumpedItem → Body
  | items : List DumpedItem → Body
  | event : DumpedEvent → Body
  | events : List DumpedEvent → Body
deriving Repr, DecidableEq

/-- An HTTP response: status code and JSON body. -/
structure Response where
  status : Nat
  body : Body
deriving Repr, DecidableEq

/-- Flask jsonify with the default status 200, the only way this code
returns. -/
def jsonify (b : Body) : Response := ⟨200, b⟩

/-- Outcome of one request: either a response or an escaped exception,
paired with the store left behind. -/
abbrev HResult := Except Fault Response × DB

instance : DecidableEq (Except Fault Response) := fun x y =>
  match x, y with
  | .ok a, .ok b =>
    if h : a = b then isTrue (by rw [h]) else isFalse (by simp [h])
  | .error a, .error b =>
    if h : a = b then isTrue (by rw [h]) else isFalse (by simp [h])
  | .ok _, .error _ => isFalse (by simp)
  | .error _, .ok _ => isFalse (by simp)

-- USER ROUTES

/-- POST /user/add (src/app.py lines 122-149). Both duplicate checks of the
source query the user table by username: the second, meant for the email,
re-uses User.username == username (line 138). At commit SQLite enforces the
unique constraints on username and on email declared at lines 25 and 27. -/
def add_user (ct : String) (username password email : String)
    (img : Option String) (db : DB) : HResult :=
  if ct ≠ "application/json" then
    (Except.ok (jsonify (Body.msg "Error: Data must be json")), db)
  else
    match db.users.find? (fun u => u.username == username) with
    | some _ =>
      (Except.ok (jsonify (Body.msg "Error: The username is already registered.")), db)
    | none =>
      match db.users.find? (fun u => u.username == username) with
      | some _ =>
        (Except.ok (jsonify (Body.msg "Error: The email is already registered.")), db)
      | none =>
        let encrypted_password := generate_password_hash password
        let new_user : User :=
          ⟨next_id (db.users.map User.id), username, encrypted_password, email, img⟩
        if db.users.any (fun u => u.username == username || u.email == email) then
          (Except.error Fault.integrityError, db)
        else
          let db2 : DB := { db with users := db.users ++ [new_user] }
          (Except.ok (jsonify (Body.user (dumpUser db2 new_user))), db2)

/-- POST /user/verify (src/app.py lines 152-169). -/
def verify_user (ct : String) (username password : String) (db : DB) : HResult :=
  if ct ≠ "application/json" then
    (Except.ok (jsonify (Body.msg "Error: Data must be json")), db)
  else
    match db.users.find? (fun u => u.username == username) with
    | none => (Except.ok (jsonify (Body.msg "User NOT verified")), db)
    | some user =>
      if check_password_hash user.password password = false then
        (Except.ok (jsonify (Body.msg "User NOT verified")), db)
      else
        (Except.ok (jsonify (Body.user (dumpUser db user))), db)

/-- GET /user/get (src/app.py lines 172-175). -/
def get_all_users (db : DB) : HResult :=
  (Except.ok (jsonify (Body.users (db.users.map (dumpUser db)))), db)

/-- GET /user/get/id (src/app.py lines 178-181); dumping the None of a
missed lookup yields a null-shaped payload, modelled as the none case. -/
def get_user_by_id (id : Nat) (db : DB) : HResult :=
  (Except.ok (jsonify (Body.userOpt
    ((db.users.find? (fun u => u.id == id)).map (dumpUser db)))), db)

/-- DELETE /user/delete/id (src/app.py lines 184-190). session.delete(None)
raises UnmappedInstanceError when the lookup misses; otherwise the delete
cascades over the members relationship and, through each member, over its
lists relationship, and over the events relationship (lines 29-30, 44). -/
def delete_user_by_id (id : Nat) (db : DB) : HResult :=
  match db.users.find? (fun u => u.id == id) with
  | none => (Except.error Fault.unmappedInstance, db)
  | some user =>
    let deadMembers := db.members.filter (fun m => m.user_id == user.id)
    let db2 : DB :=
      { users := db.users.filter (fun u => u.id ≠ user.id),
        members := db.members.filter (fun m => m.user_id ≠ user.id),
        items := db.items.filter
          (fun l => ¬ deadMembers.any (fun m => m.member_id == l.member_id)),
        events := db.events.filter (fun e => e.user_id ≠ user.id) }
    (Except.ok (jsonify (Body.msg "The user has been deleted")), db2)

-- MEMBER ROUTES

/-- POST /member/add (src/app.py lines 195-209); no foreign-key validation
is performed on user_id. -/
def add_member (ct : String) (first_name last_name : String) (user_id : Nat)
    (db : DB) : HResult :=
  if ct ≠ "application/json" then
    (Except.ok (jsonify (Body.msg "Error: Data must be json")), db)
  else
    let new_member : Member :=
      ⟨next_id (db.members.map Member.member_id), first_name, last_name, user_id⟩
    let db2 : DB := { db with members := db.members ++ [new_member] }
    (Except.ok (jsonify (Body.member (dumpMember db2 new_member))), db2)

/-- GET /member/get/id (src/app.py lines 212-215). -/
def get_member_by_id (id : Nat) (db : DB) : HResult :=
  (Except.ok (jsonify (Body.memberOpt
    ((db.members.find? (fun m => m.member_id == id)).map (dumpMember db)))), db)

/-- GET /members/get/user_id (src/app.py lines 218-221). -/
def get_members_by_user_id (user_id : Nat) (db : DB) : HResult :=
  (Except.ok (jsonify (Body.members
    ((db.members.filter (fun m => m.user_id == user_id)).map (dumpMember db)))), db)

/-- DELETE /member/delete/id (src/app.py lines 224-230); cascades over the
lists relationship of the deleted member. -/
def delete_member_by_id (id : Nat) (db : DB) : HResult :=
  match db.members.find? (fun m => m.member_id == id) with
  | none => (Except.error Fault.unmappedInstance, db)
  | some member =>
    let db2 : DB :=
      { db with
        members := db.members.filter (fun m => m.member_id ≠ member.member_id),
        items := db.items.filter (fun l => l.member_id ≠ member.member_id) }
    (Except.ok (jsonify (Body.msg "The family member has been deleted.")), db2)

/-- PUT/PATCH /member/update/id (src/app.py lines 233-250). After the
content-type guard the code evaluates Member.id == id (line 242), but class
Member declares no attribute id (its key is member_id), so every JSON request
raises AttributeError before any row is read or written. -/
def update_member_by_id (ct : String) (first_name last_name : Option String)
    (id : Nat) (db : DB) : HResult :=
  if ct ≠ "application/json" then
    (Except.ok (jsonify (Body.msg "Error: Data must be json")), db)
  else
    (Except.error (Fault.attributeError "Member.id"), db)

-- LIST ROUTES

/-- POST /item/add (src/app.py lines 254-270). The value of
post_data.get(is_completed) — None when the key is absent — is assigned to
the column verbatim; the declared default False never fires because the
constructor always supplies a value. -/
def add_item (ct : String) (text : String) (is_completed : Option Bool)
    (list_type : String) (member_id : Nat) (db : DB) : HResult :=
  if ct ≠ "application/json" then
    (Except.ok (jsonify (Body.msg "Error: Data must be json")), db)
  else
    let new_item : ListItem :=
      ⟨next_id (db.items.map ListItem.list_id), text, is_completed, list_type, member_id⟩
    let db2 : DB := { db with items := db.items ++ [new_item] }
    (Except.ok (jsonify (Body.item (dumpItem new_item))), db2)

/-- GET /item/get/member_id (src/app.py lines 273-276). -/
def get_items_by_member_id (member_id : Nat) (db : DB) : HResult :=
  (Except.ok (jsonify (Body.items
    ((db.items.filter (fun l => l.member_id == member_id)).map dumpItem))), db)

/-- PUT/PATCH /item/update/id (src/app.py lines 279-303). As with the member
update, List.id at line 290 names no attribute of class List (its key is
list_id), so every JSON request raises AttributeError. -/
def update_item_by_id (ct : String) (text : Option String)
    (is_completed : Option Bool) (list_type : Option String)
    (member_id : Option Nat) (id : Nat) (db : DB) : HResult :=
  if ct ≠ "application/json" then
    (Except.ok (jsonify (Body.msg "Error: Data must be json")), db)
  else
    (Except.error (Fault.attributeError "List.id"), db)

/-- DELETE /item/delete/id (src/app.py lines 306-312). -/
def delete_item_by_id (id : Nat) (db : DB) : HResult :=
  match db.items.find? (fun l => l.list_id == id) with
  | none => (Except.error Fault.unmappedInstance, db)
  | some item =>
    let db2 : DB := { db with items := db.items.filter (fun l => l.list_id ≠ item.list_id) }
    (Except.ok (jsonify (Body.msg "The list item has been deleted.")), db2)

-- EVENT ROUTES

/-- POST /event/add (src/app.py lines 318-334). -/
def add_event (ct : String) (title start end_ : String) (user_id : Nat)
    (db : DB) : HResult :=
  if ct ≠ "application/json" then
    (Except.ok (jsonify (Body.msg "Error: Data must be json")), db)
  else
    let new_event : Event :=
      ⟨next_id (db.events.map Event.event_id), title, start, end_, user_id⟩
    let db2 : DB := { db with events := db.events ++ [new_event] }
    (Except.ok (jsonify (Body.event (dumpEvent new_event))), db2)

/-- GET /event/get/user_id (src/app.py lines 337-340). -/
def get_events_by_user_id (user_id : Nat) (db : DB) : HResult :=
  (Except.ok (jsonify (Body.events
    ((db.events.filter (fun e => e.user_id == user_id)).map dumpEvent))), db)

/-- DELETE /event/delete/id (src/app.py lines 343-349). -/
def delete_event_by_id (id : Nat) (db : DB) : HResult :=
  match db.events.find? (fun e => e.event_id == id) with
  | none => (Except.error Fault.unmappedInstance, db)
  | some event =>
    let db2 : DB :=
      { db with events := db.events.filter (fun e => e.event_id ≠ event.event_id) }
    (Except.ok (jsonify (Body.msg "The event has been deleted.")), db2)

-- OPERATION SEQUENCES

/-- One incoming request, with its extracted fields. -/
inductive Op where
  | addUser (ct username password email : String) (img : Option String)
  | verifyUser (ct username password : String)
  | getAllUsers
  | getUserById (id : Nat)
  | deleteUser (id : Nat)
  | addMember (ct first_name last_name : String) (user_id : Nat)
  | getMemberById (id : Nat)
  | getMembersByUserId (user_id : Nat)
  | deleteMember (id : Nat)
  | updateMember (ct : String) (first_name last_name : Option String) (id : Nat)
  | addItem (ct text : String) (is_completed : Option Bool) (list_type : String)
      (member_id : Nat)
  | getItemsByMemberId (member_id : Nat)
  | updateItem (ct : String) (text : Option String) (is_completed : Option Bool)
      (list_type : Option String) (member_id : Option Nat) (id : Nat)
  | deleteItem (id : Nat)
  | addEvent (ct title start end_ : String) (user_id : Nat)
  | getEventsByUserId (user_id : Nat)
  | deleteEvent (id : Nat)
deriving Repr, DecidableEq

/-- Dispatch one request to its handler. -/
def handle (op : Op) (db : DB) : HResult :=
  match op with
  | .addUser ct un pw em img => add_user ct un pw em img db
  | .verifyUser ct un pw => verify_user ct un pw db
  | .getAllUsers => get_all_users db
  | .getUserById id => get_user_by_id id db
  | .deleteUser id => delete_user_by_id id db
  | .addMember ct fn ln uid => add_member ct fn ln uid db
  | .getMemberById id => get_member_by_id id db
  | .getMembersByUserId uid => get_members_by_user_id uid db
  | .deleteMember id => delete_member_by_id id db
  | .updateMember ct fn ln id => update_member_by_id ct fn ln id db
  | .addItem ct t ic lt mid => add_item ct t ic lt mid db
  | .getItemsByMemberId mid => get_items_by_member_id mid db
  | .updateItem ct t ic lt mid id => update_item_by_id ct t ic lt mid id db
  | .deleteItem id => delete_item_by_id id db
  | .addEvent ct ti st en uid => add_event ct ti st en uid db
  | .getEventsByUserId uid => get_events_by_user_id uid db
  | .deleteEvent id => delete_event_by_id id db

/-- The store after one request (a faulting request leaves the store as the
handler left it, which in this code is always unchanged). -/
def step (db : DB) (op : Op) : DB := (handle op db).2

/-- The store after a sequence of requests. -/
def run (ops : List Op) (db : DB) : DB := ops.foldl step db

-- SPECIFICATION PREDICATES AND FIXTURES

/-- Every password stored in the user table is the image of some plaintext
under the credential-layer hash. -/
def PasswordsHashed (db : DB) : Prop :=
  ∀ u ∈ db.users, ∃ p, u.password = generate_password_hash p

/-- Cascade contract of DELETE /user/delete/id on a stored user u: the
status string is returned, u is gone, exactly the members owned by u are
gone, exactly the items owned by those members are gone, the events of u are
gone, and every row owned by another user survives. -/
def UserDeleteCascades (db : DB) (u : User) : Prop :=
  (delete_user_by_id u.id db).1 =
    Except.ok (jsonify (Body.msg "The user has been deleted")) ∧
  (∀ v : User, v ∈ (delete_user_by_id u.id db).2.users ↔
    v ∈ db.users ∧ v.id ≠ u.id) ∧
  (∀ m : Member, m ∈ (delete_user_by_id u.id db).2.members ↔
    m ∈ db.members ∧ m.user_id ≠ u.id) ∧
  (∀ l : ListItem, l ∈ (delete_user_by_id u.id db).2.items ↔
    l ∈ db.items ∧ ¬ ∃ m ∈ db.members, m.user_id = u.id ∧ m.member_id = l.member_id) ∧
  (∀ e : Event, e ∈ (delete_user_by_id u.id db).2.events ↔
    e ∈ db.events ∧ e.user_id ≠ u.id)

/-- Concrete fixture store: two users, each owning one member, each member
owning one item; one event owned by the first user. -/
def dbFix : DB :=
  ⟨[⟨1, "u1", "$2b$12$x", "a@x.com", none⟩, ⟨2, "u2", "$2b$12$y", "b@x.com", none⟩],
   [⟨1, "Jo", "Do", 1⟩, ⟨2, "Al", "Bo", 2⟩],
   [⟨1, "milk", some false, "groceries", 1⟩, ⟨2, "eggs", none, "groceries", 2⟩],
   [⟨1, "party", "2024-01-01", "2024-01-02", 1⟩]⟩

-- HELPER LEMMAS

/-- Hashing is injective: the bcrypt-style tag is a fixed prefix. -/
theorem generate_password_hash_injective {p q : String}
    (h : generate_password_hash p = generate_password_hash q) : p = q := by
  have h2 : ("$2b$12$" ++ p).data = ("$2b$12$" ++ q).data := congrArg String.data h
  rw [String.data_append, String.data_append] at h2
  exact String.ext (List.append_cancel_left h2)

/-- A hash is never the plaintext it was produced from: it is strictly
longer. -/
theorem generate_password_hash_ne_self (p : String) :
    generate_password_hash p ≠ p := by
  intro h
  have h2 := congrArg String.length h
  rw [generate_password_hash, String.length_append] at h2
  have h3 : ("$2b$12$" : String).length = 7 := rfl
  omega

/-- One request either leaves the user table a sublist of what it was
(unchanged, or with one row removed by the user delete), or appends exactly
one row whose password column is a hash. -/
theorem step_users_hashed (db : DB) (op : Op) :
    (step db op).users.Sublist db.users ∨
    ∃ un pw em img, (step db op).users =
      db.users ++ [⟨next_id (db.users.map User.id), un,
        generate_password_hash pw, em, img⟩] := by
  cases op with
  | addUser ct un pw em img =>
    simp only [step, handle, add_user]
    split
    · exact Or.inl (List.Sublist.refl _)
    · split
      · exact Or.inl (List.Sublist.refl _)
      · split
        · exact Or.inl (List.Sublist.refl _)
        · split
          · exact Or.inl (List.Sublist.refl _)
          · exact Or.inr ⟨un, pw, em, img, rfl⟩
  | verifyUser ct un pw =>
    simp only [step, handle, verify_user]
    split
    · exact Or.inl (List.Sublist.refl _)
    · split
      · exact Or.inl (List.Sublist.refl _)
      · split
        · exact Or.inl (List.Sublist.refl _)
        · exact Or.inl (List.Sublist.refl _)
  | getAllUsers => exact Or.inl (List.Sublist.refl _)
  | getUserById id => exact Or.inl (List.Sublist.refl _)
  | deleteUser id =>
    simp only [step, handle, delete_user_by_id]
    split
    · exact Or.inl (List.Sublist.refl _)
    · exact Or.inl (List.filter_sublist _)
  | addMember ct fn ln uid =>
    simp only [step, handle, add_member]
    split
    · exact Or.inl (List.Sublist.refl _)
    · exact Or.inl (List.Sublist.refl _)
  | getMemberById id => exact Or.inl (List.Sublist.refl _)
  | getMembersByUserId uid => exact Or.inl (List.Sublist.refl _)
  | deleteMember id =>
    simp only [step, handle, delete_member_by_id]
    split
    · exact Or.inl (List.Sublist.refl _)
    · exact Or.inl (List.Sublist.refl _)
  | updateMember ct fn ln id =>
    simp only [step, handle, update_member_by_id]
    split
    · exact Or.inl (List.Sublist.refl _)
    · exact Or.inl (List.Sublist.refl _)
  | addItem ct t ic lt mid =>
    simp only [step, handle, add_item]
    split
    · exact Or.inl (List.Sublist.refl _)
    · exact Or.inl (List.Sublist.refl _)
  | getItemsByMemberId mid => exact Or.inl (List.Sublist.refl _)
  | updateItem ct t ic lt mid id =>
    simp only [step, handle, update_item_by_id]
    split
    · exact Or.inl (List.Sublist.refl _)
    · exact Or.inl (List.Sublist.refl _)
  | deleteItem id =>
    simp only [step, handle, delete_item_by_id]
    split
    · exact Or.inl (List.Sublist.refl _)
    · exact Or.inl (List.Sublist.refl _)
  | addEvent ct ti st en uid =>
    simp only [step, handle, add_event]
    split
    · exact Or.inl (List.Sublist.refl _)
    · exact Or.inl (List.Sublist.refl _)
  | getEventsByUserId uid => exact Or.inl (List.Sublist.refl _)
  | deleteEvent id =>
    simp only [step, handle, delete_event_by_id]
    split
    · exact Or.inl (List.Sublist.refl _)
    · exact Or.inl (List.Sublist.refl _)

/-- The hashed-passwords invariant is preserved by any request sequence. -/
theorem run_passwords_hashed (ops : List Op) (db : DB)
    (h : PasswordsHashed db) : PasswordsHashed (run ops db) := by
  induction ops generalizing db with
  | nil => exact h
  | cons op rest ih =>
    have hstep : PasswordsHashed (step db op) := by
      rcases step_users_hashed db op with hs | ⟨un, pw, em, img, he⟩
      · intro u hu
        exact h u (hs.subset hu)
      · intro u hu
        rw [he] at hu
        rcases List.mem_append.mp hu with h1 | h2
        · exact h u h1
        · simp only [List.mem_singleton] at h2
          subst h2
          exact ⟨pw, rfl⟩
    simpa only [run, List.foldl] using ih (step db op) hstep

-- CLAIMS

/-- C1: the claim says a create-user request whose email is already stored
fails with the duplicate-field error string. Evaluated at a store holding a
user with email a@x.com and a request with a fresh username u9 and that same
email: both handler checks query by username, so the request passes them and
the insert aborts with the IntegrityError of the unique email constraint; the
duplicate-email error string is never returned. -/
theorem C1_duplicate_email_slips_past_handler :
    add_user "application/json" "u9" "p" "a@x.com" none dbFix =
      (Except.error Fault.integrityError, dbFix) ∧
    (add_user "application/json" "u9" "p" "a@x.com" none dbFix).1 ≠
      Except.ok (jsonify (Body.msg "Error: The email is already registered.")) := by
  decide

/-- C2: deleting a stored user u returns the status string, removes u, all
members whose user_id is u.id and, transitively, all items owned by those
members (and the events of u), and leaves every row owned by another user in
place. -/
theorem C2_delete_user_cascade (db : DB) (u : User) (hu : u ∈ db.users) :
    UserDeleteCascades db u := by
  rcases hfind : db.users.find? (fun v => v.id == u.id) with _ | w
  · exfalso
    have h := List.find?_eq_none.mp hfind u hu
    simp at h
  · have hw : w.id = u.id := by simpa using List.find?_some hfind
    unfold UserDeleteCascades delete_user_by_id
    rw [hfind]
    refine ⟨rfl, ?_, ?_, ?_, ?_⟩
    · intro v
      simp [List.mem_filter, hw]
    · intro m
      simp [List.mem_filter, hw]
    · intro l
      simp only [List.mem_filter, List.any_eq_true, decide_eq_true_eq,
        beq_iff_eq, hw, and_assoc]
    · intro e
      simp [List.mem_filter, hw]

/-- Witness for C2 at the fixture store and its first user. -/
theorem C2_delete_user_cascade_witness :
    UserDeleteCascades dbFix ⟨1, "u1", "$2b$12$x", "a@x.com", none⟩ :=
  C2_delete_user_cascade dbFix ⟨1, "u1", "$2b$12$x", "a@x.com", none⟩ (by decide)

/-- C3: the claim says the member and item update handlers overwrite the
payload fields and return the update status string. Evaluated at the fixture
store, which does hold a member with member_id 1 and an item with list_id 1:
both handlers raise AttributeError on the nonexistent class attributes
Member.id and List.id, so no field is written and no status string is
returned. -/
theorem C3_update_handlers_raise_attribute_error :
    update_member_by_id "application/json" (some "Ann") none 1 dbFix =
      (Except.error (Fault.attributeError "Member.id"), dbFix) ∧
    update_item_by_id "application/json" (some "bread") none none none 1 dbFix =
      (Except.error (Fault.attributeError "List.id"), dbFix) := by
  decide

/-- C4: verifying a password against its own hash succeeds, and verifying
any other password against that hash fails (credential layer modelled from
the spec, with an injective hash). -/
theorem C4_verify_hash_roundtrip (p q : String) (hq : q ≠ p) :
    check_password_hash (generate_password_hash p) p = true ∧
    check_password_hash (generate_password_hash p) q = false := by
  constructor
  · simp [check_password_hash]
  · rw [check_password_hash, beq_eq_false_iff_ne]
    intro h
    exact hq (generate_password_hash_injective h)

/-- Witness for C4 at two distinct concrete passwords. -/
theorem C4_verify_hash_roundtrip_witness :
    ("hunter2" : String) ≠ "hunter3" ∧
    (check_password_hash (generate_password_hash "hunter3") "hunter3" = true ∧
     check_password_hash (generate_password_hash "hunter3") "hunter2" = false) :=
  ⟨by decide, C4_verify_hash_roundtrip "hunter3" "hunter2" (by decide)⟩

/-- C5: in every store reachable by any request sequence from the empty
store, the password column of every stored user is the hash of the plaintext
supplied at its creation and differs from that plaintext; no handler ever
writes a plaintext password. -/
theorem C5_no_plaintext_password_stored (ops : List Op) (u : User)
    (hu : u ∈ (run ops initDB).users) :
    ∃ p, u.password = generate_password_hash p ∧ u.password ≠ p := by
  have hinv : PasswordsHashed (run ops initDB) := by
    apply run_passwords_hashed
    intro v hv
    simp [initDB] at hv
  obtain ⟨p, hp⟩ := hinv u hu
  refine ⟨p, hp, ?_⟩
  rw [hp]
  exact generate_password_hash_ne_self p

/-- Witness for C5 after one concrete create-user request. -/
theorem C5_no_plaintext_password_stored_witness :
    (⟨1, "a", "$2b$12$p", "a@x.com", none⟩ : User) ∈
      (run [Op.addUser "application/json" "a" "p" "a@x.com" none] initDB).users ∧
    ∃ q, (User.mk 1 "a" "$2b$12$p" "a@x.com" none).password =
        generate_password_hash q ∧
      (User.mk 1 "a" "$2b$12$p" "a@x.com" none).password ≠ q :=
  ⟨by decide,
   C5_no_plaintext_password_stored
     [Op.addUser "application/json" "a" "p" "a@x.com" none]
     ⟨1, "a", "$2b$12$p", "a@x.com", none⟩ (by decide)⟩

/-- C6: GET /members/get/q responds with the dump of the list of exactly
those stored members whose user_id equals q: a member is in that list iff it
is stored and its user_id is q. -/
theorem C6_members_by_user_id_exact (db : DB) (q : Nat) (m : Member) :
    get_members_by_user_id q db =
      (Except.ok (jsonify (Body.members
        ((db.members.filter (fun x => x.user_id == q)).map (dumpMember db)))), db) ∧
    (m ∈ db.members.filter (fun x => x.user_id == q) ↔
      m ∈ db.members ∧ m.user_id = q) := by
  constructor
  · rfl
  · simp [List.mem_filter]

/-- C7: every response that serializes a user carries the stored password
column as the password field: the dump projection preserves it, and the
get-all, get-by-id, verify (success) and add (success) handlers all respond
with that projection of the stored row. -/
theorem C7_password_in_every_user_dump :
    (∀ db u, (dumpUser db u).password = u.password) ∧
    (∀ db, get_all_users db =
      (Except.ok (jsonify (Body.users (db.users.map (dumpUser db)))), db)) ∧
    (∀ db id, get_user_by_id id db =
      (Except.ok (jsonify (Body.userOpt
        ((db.users.find? (fun u => u.id == id)).map (dumpUser db)))), db)) ∧
    (∀ db un pw u, db.users.find? (fun v => v.username == un) = some u →
      check_password_hash u.password pw = true →
      verify_user "application/json" un pw db =
        (Except.ok (jsonify (Body.user (dumpUser db u))), db)) ∧
    (∀ db un pw em img,
      db.users.any (fun v => v.username == un || v.email == em) = false →
      ∃ d, (add_user "application/json" un pw em img db).1 =
          Except.ok (jsonify (Body.user d)) ∧
        d.password = generate_password_hash pw) := by
  refine ⟨fun db u => rfl, fun db => rfl, fun db id => rfl, ?_, ?_⟩
  · intro db un pw u hf hc
    unfold verify_user
    rw [if_neg (fun h => h rfl), hf]
    simp [hc]
  · intro db un pw em img hany
    have hnone : db.users.find? (fun v => v.username == un) = none := by
      rw [List.find?_eq_none]
      intro v hv
      have hv2 := List.any_eq_false.mp hany v hv
      simp only [Bool.or_eq_true, not_or] at hv2
      exact hv2.1
    unfold add_user
    rw [if_neg (fun h => h rfl), hnone]
    simp only [hany]
    exact ⟨_, rfl, rfl⟩

/-- Witness for C7 at the fixture store: a successful verify and a
successful add both respond with a dump carrying the stored hash. -/
theorem C7_password_in_every_user_dump_witness :
    verify_user "application/json" "u1" "x" dbFix =
      (Except.ok (jsonify (Body.user
        (dumpUser dbFix ⟨1, "u1", "$2b$12$x", "a@x.com", none⟩))), dbFix) ∧
    ∃ d, (add_user "application/json" "u9" "p" "n@x.com" none dbFix).1 =
        Except.ok (jsonify (Body.user d)) ∧
      d.password = generate_password_hash "p" :=
  ⟨C7_password_in_every_user_dump.2.2.2.1 dbFix "u1" "x"
     ⟨1, "u1", "$2b$12$x", "a@x.com", none⟩ (by decide) (by decide),
   C7_password_in_every_user_dump.2.2.2.2 dbFix "u9" "p" "n@x.com" none (by decide)⟩

/-- C8 counterexample: the claim says every delete or update handler called
with an unmatched id proceeds with a null reference and faults; at member id
99, which matches nothing in the empty store, the member update handler does
fault, but with the AttributeError of the nonexistent attribute Member.id,
raised before any lookup, not with the null-reference fault of
session.delete(None). -/
theorem C8_update_fault_is_not_null_reference :
    update_member_by_id "application/json" (some "Ann") none 99 initDB =
      (Except.error (Fault.attributeError "Member.id"), initDB) ∧
    (update_member_by_id "application/json" (some "Ann") none 99 initDB).1 ≠
      Except.error Fault.unmappedInstance := by
  decide

/-- C8 (amended): on an id matching no stored row, every delete handler
proceeds with the null lookup result and faults in session.delete, while the
two update handlers fault even earlier, on the undefined id attribute of
their model class; in every case the handler faults instead of returning its
status string and the store is unchanged. -/
theorem C8_missing_id_faults_store_unchanged (db : DB) (id : Nat)
    (fn ln t lt : Option String) (ic : Option Bool) (mid : Option Nat)
    (hu : ∀ u ∈ db.users, u.id ≠ id)
    (hm : ∀ m ∈ db.members, m.member_id ≠ id)
    (hl : ∀ l ∈ db.items, l.list_id ≠ id)
    (he : ∀ e ∈ db.events, e.event_id ≠ id) :
    delete_user_by_id id db = (Except.error Fault.unmappedInstance, db) ∧
    delete_member_by_id id db = (Except.error Fault.unmappedInstance, db) ∧
    delete_item_by_id id db = (Except.error Fault.unmappedInstance, db) ∧
    delete_event_by_id id db = (Except.error Fault.unmappedInstance, db) ∧
    update_member_by_id "application/json" fn ln id db =
      (Except.error (Fault.attributeError "Member.id"), db) ∧
    update_item_by_id "application/json" t ic lt mid id db =
      (Except.error (Fault.attributeError "List.id"), db) := by
  have hu2 : db.users.find? (fun u => u.id == id) = none := by
    rw [List.find?_eq_none]
    intro u hx
    simpa using hu u hx
  have hm2 : db.members.find? (fun m => m.member_id == id) = none := by
    rw [List.find?_eq_none]
    intro m hx
    simpa using hm m hx
  have hl2 : db.items.find? (fun l => l.list_id == id) = none := by
    rw [List.find?_eq_none]
    intro l hx
    simpa using hl l hx
  have he2 : db.events.find? (fun e => e.event_id == id) = none := by
    rw [List.find?_eq_none]
    intro e hx
    simpa using he e hx
  refine ⟨?_, ?_, ?_, ?_, ?_, ?_⟩
  · unfold delete_user_by_id
    rw [hu2]
  · unfold delete_member_by_id
    rw [hm2]
  · unfold delete_item_by_id
    rw [hl2]
  · unfold delete_event_by_id
    rw [he2]
  · unfold update_member_by_id
    rw [if_neg (fun h => h rfl)]
  · unfold update_item_by_id
    rw [if_neg (fun h => h rfl)]

/-- Witness for the amended C8 at the fixture store and the unmatched id
99. -/
theorem C8_missing_id_faults_store_unchanged_witness :
    delete_user_by_id 99 dbFix = (Except.error Fault.unmappedInstance, dbFix) ∧
    delete_member_by_id 99 dbFix = (Except.error Fault.unmappedInstance, dbFix) ∧
    delete_item_by_id 99 dbFix = (Except.error Fault.unmappedInstance, dbFix) ∧
    delete_event_by_id 99 dbFix = (Except.error Fault.unmappedInstance, dbFix) ∧
    update_member_by_id "application/json" (some "Ann") none 99 dbFix =
      (Except.error (Fault.attributeError "Member.id"), dbFix) ∧
    update_item_by_id "application/json" (some "bread") none none none 99 dbFix =
      (Except.error (Fault.attributeError "List.id"), dbFix) :=
  C8_missing_id_faults_store_unchanged dbFix 99 (some "Ann") none (some "bread")
    none none none (by decide) (by decide) (by decide) (by decide)

/-- C9: every POST/PUT/PATCH handler, given any content type other than
application/json, responds with status 200 and the body Error: Data must be
json, and hands back the store unchanged; the response does not depend on
the store at all. -/
theorem C9_non_json_content_type_rejected (ct : String)
    (hct : ct ≠ "application/json") (db : DB)
    (un pw em fn ln t lt ti st en : String) (img : Option String)
    (ic : Option Bool) (uid mid id : Nat)
    (fn2 ln2 t2 lt2 : Option String) (mid2 : Option Nat) :
    add_user ct un pw em img db =
      (Except.ok (jsonify (Body.msg "Error: Data must be json")), db) ∧
    verify_user ct un pw db =
      (Except.ok (jsonify (Body.msg "Error: Data must be json")), db) ∧
    add_member ct fn ln uid db =
      (Except.ok (jsonify (Body.msg "Error: Data must be json")), db) ∧
    update_member_by_id ct fn2 ln2 id db =
      (Except.ok (jsonify (Body.msg "Error: Data must be json")), db) ∧
    add_item ct t ic lt mid db =
      (Except.ok (jsonify (Body.msg "Error: Data must be json")), db) ∧
    update_item_by_id ct t2 ic lt2 mid2 id db =
      (Except.ok (jsonify (Body.msg "Error: Data must be json")), db) ∧
    add_event ct ti st en uid db =
      (Except.ok (jsonify (Body.msg "Error: Data must be json")), db) := by
  refine ⟨?_, ?_, ?_, ?_, ?_, ?_, ?_⟩
  · unfold add_user
    rw [if_pos hct]
  · unfold verify_user
    rw [if_pos hct]
  · unfold add_member
    rw [if_pos hct]
  · unfold update_member_by_id
    rw [if_pos hct]
  · unfold add_item
    rw [if_pos hct]
  · unfold update_item_by_id
    rw [if_pos hct]
  · unfold add_event
    rw [if_pos hct]

/-- Witness for C9 at the content type text/html and the fixture store. -/
theorem C9_non_json_content_type_rejected_witness :
    add_user "text/html" "u9" "p" "n@x.com" none dbFix =
      (Except.ok (jsonify (Body.msg "Error: Data must be json")), dbFix) ∧
    verify_user "text/html" "u1" "x" dbFix =
      (Except.ok (jsonify (Body.msg "Error: Data must be json")), dbFix) ∧
    add_member "text/html" "Jo" "Do" 1 dbFix =
      (Except.ok (jsonify (Body.msg "Error: Data must be json")), dbFix) ∧
    update_member_by_id "text/html" (some "Ann") none 1 dbFix =
      (Except.ok (jsonify (Body.msg "Error: Data must be json")), dbFix) ∧
    add_item "text/html" "milk" none "groceries" 1 dbFix =
      (Except.ok (jsonify (Body.msg "Error: Data must be json")), dbFix) ∧
    update_item_by_id "text/html" (some "bread") none none none 1 dbFix =
      (Except.ok (jsonify (Body.msg "Error: Data must be json")), dbFix) ∧
    add_event "text/html" "party" "2024-01-01" "2024-01-02" 1 dbFix =
      (Except.ok (jsonify (Body.msg "Error: Data must be json")), dbFix) :=
  C9_non_json_content_type_rejected "text/html" (by decide) dbFix
    "u9" "p" "n@x.com" "Jo" "Do" "milk" "groceries" "party" "2024-01-01"
    "2024-01-02" none none 1 1 1 (some "Ann") none (some "bread") none none

/-- C10: the claim says an add-item request without the is_completed key
stores and serializes the item with is_completed false. Evaluated at the
fixture store with such a request: the handler passes the absent value
through the constructor verbatim, so the row is stored and dumped with
is_completed null (none), not false — the declared column default never
fires. -/
theorem C10_omitted_is_completed_stored_null :
    add_item "application/json" "bread" none "groceries" 1 dbFix =
      (Except.ok (jsonify (Body.item ⟨3, "bread", none, "groceries"⟩)),
       { dbFix with items := dbFix.items ++ [⟨3, "bread", none, "groceries", 1⟩] }) ∧
    (⟨3, "bread", none, "groceries", 1⟩ : ListItem).is_completed ≠ some false := by
  decide

end HappyHome
